import Mathlib

/-!
Verification of the cron admin backend's business logic.

The repository is a set of near-duplicate revisions of one Express/Mongoose
application.  The definitions below are a shallow embedding of the most
evolved revision of each endpoint found in the sources:

* `createTest`    — POST /admin/create-test-with-questions (the revision with
  `testType` and `allowedCounts`, src/api/index.js lines 333-410),
* `deleteTest`    — DELETE /admin/delete-test/:testId (the revision that
  returns 404 when the test is missing, src/api/index.js lines 430-440),
* `deleteQuestion`— DELETE /admin/delete-question/:id (src/api/index.js
  lines 757-760),
* `adminLogin`    — POST /admin/login (the revision cited by the claims,
  src/api/index.js lines 312-330).

The document store is modelled as in-memory lists (`DB`); Mongoose document
validation (required / min / enum / maxlength) is modelled by
`questionDocValid` and `testDocValid`, applied exactly where Mongoose applies
them: at `Test.create` and at `Question.insertMany`.  JavaScript `Date`
instants are modelled as integer milliseconds since the Unix epoch;
`new Date("YYYY-MM-DDT00:00:00+05:30")` is modelled by `parseDateIST`, which
accepts exactly the real calendar dates.
-/

namespace CronAdmin

/-- Milliseconds of the fixed UTC+5:30 offset (`IST_OFFSET_MS` in the source). -/
def IST_OFFSET_MS : Int := 19800000

/-- JS truthiness test for an optional string field: `undefined`/`null` and
the empty string are falsy (`!date` in the source). -/
def strFalsy : Option String → Bool
  | none => true
  | some s => s == ""

/-- ASCII whitespace, the model of the character class JS `trim` strips. -/
def isJsSpace (c : Char) : Bool :=
  c == ' ' || c == '\t' || c == '\n' || c == '\r'

/-- Drop leading whitespace characters. -/
def dropLeadingSpace : List Char → List Char
  | [] => []
  | c :: cs => if isJsSpace c then dropLeadingSpace cs else c :: cs

/-- JS `String.prototype.trim`: strip whitespace from both ends. -/
def jsTrim (s : String) : String :=
  String.mk (List.reverse (dropLeadingSpace (List.reverse (dropLeadingSpace s.data))))

/-- Lowercase an ASCII letter, the model of one character of JS
`toLowerCase`. -/
def asciiLower (c : Char) : Char :=
  if 'A' ≤ c && c ≤ 'Z' then Char.ofNat (c.toNat + 32) else c

/-- JS `String.prototype.toLowerCase`. -/
def jsToLower (s : String) : String := String.mk (s.data.map asciiLower)

/-- The source's `!title?.trim()`: missing title, or title blank after trim. -/
def titleMissing : Option String → Bool
  | none => true
  | some s => jsTrim s == ""

/-- The source's `["paid", "free"].includes(testType)`. -/
def testTypeOk : Option String → Bool
  | some t => t == "paid" || t == "free"
  | none => false

/-- Whether a character list contains the character `T`
(JS `date.includes("T")`). -/
def containsT : List Char → Bool
  | [] => false
  | c :: cs => c == 'T' || containsT cs

/-- The prefix of a character list before its first `T`
(JS `date.split("T")[0]`). -/
def beforeT : List Char → List Char
  | [] => []
  | c :: cs => if c == 'T' then [] else c :: beforeT cs

/-- The source's date normalization:
`if (date.includes("T")) date = date.split("T")[0]`. -/
def normalizeDate (s : String) : String :=
  if containsT s.data then String.mk (beforeT s.data) else s

/-- The regex `/^\d{4}-\d{2}-\d{2}$/` as a predicate on the string's
characters. -/
def digitsDashPattern (s : String) : Bool :=
  match s.data with
  | [a, b, c, d, e, f, g, h, i, j] =>
    a.isDigit && b.isDigit && c.isDigit && d.isDigit && e == '-' &&
    f.isDigit && g.isDigit && h == '-' && i.isDigit && j.isDigit
  | _ => false

/-- Numeric value of a decimal digit character. -/
def digNat (c : Char) : Nat := c.toNat - 48

/-- Parse a `YYYY-MM-DD` string into its year, month and day fields;
`none` when the string does not match the pattern. -/
def parseYMD (s : String) : Option (Nat × Nat × Nat) :=
  match s.data with
  | [a, b, c, d, e, f, g, h, i, j] =>
    if a.isDigit && b.isDigit && c.isDigit && d.isDigit && e == '-' &&
       f.isDigit && g.isDigit && h == '-' && i.isDigit && j.isDigit then
      some (digNat a * 1000 + digNat b * 100 + digNat c * 10 + digNat d,
            digNat f * 10 + digNat g,
            digNat i * 10 + digNat j)
    else
      none
  | _ => none

/-- Gregorian leap-year rule. -/
def isLeap (y : Nat) : Bool := (y % 4 == 0 && y % 100 != 0) || y % 400 == 0

/-- Days in a month of the proleptic Gregorian calendar. -/
def daysInMonth (y m : Nat) : Nat :=
  if m == 2 then (if isLeap y then 29 else 28)
  else if m == 4 || m == 6 || m == 9 || m == 11 then 30
  else 31

/-- Whether `y-m-d` is a real calendar date (the dates JS `Date` parses to a
non-NaN instant from an ISO string). -/
def validYMD (y m d : Nat) : Bool :=
  1 ≤ m && m ≤ 12 && 1 ≤ d && d ≤ daysInMonth y m

/-- Days from 1970-01-01 to `y-m-d` in the proleptic Gregorian calendar
(Howard Hinnant's civil-from-days algorithm, with floor division). -/
def epochDays (y m d : Nat) : Int :=
  let yy : Int := if m ≤ 2 then (y : Int) - 1 else (y : Int)
  let era : Int := Int.fdiv yy 400
  let yoe : Int := yy - era * 400
  let mp : Int := ((m : Int) + 9) % 12
  let doy : Int := Int.fdiv (153 * mp + 2) 5 + (d : Int) - 1
  let doe : Int := yoe * 365 + Int.fdiv yoe 4 - Int.fdiv yoe 100 + doy
  era * 146097 + doe - 719468

/-- The epoch-millisecond instant whose ISO-8601 rendering is
`s` `T00:00:00.000Z`, for a well-formed real calendar date `s`. -/
def msOfDateMidnightUTC (s : String) : Option Int :=
  match parseYMD s with
  | some (y, m, d) =>
    if validYMD y m d then some (epochDays y m d * 86400000) else none
  | none => none

/-- The source's `new Date(date + "T00:00:00+05:30")` together with its
`isNaN(dateObj.getTime())` check: midnight of the date in the UTC+5:30
offset, as epoch milliseconds, or `none` for an invalid calendar date. -/
def parseDateIST (s : String) : Option Int :=
  (msOfDateMidnightUTC s).map (fun t => t - IST_OFFSET_MS)

/-- The listing endpoint's IST display shift:
`new Date(t.getTime() + IST_OFFSET_MS)`. -/
def istDisplayMs (t : Int) : Int := t + IST_OFFSET_MS

/-- A persisted Test document (the most evolved `testSchema`: `title`, `date`,
`startTime`, `endTime`, `totalQuestions`, `testType`; there is no `phase`
field in any revision's schema). -/
structure TestRec where
  id : Nat
  title : String
  date : String
  startTime : Int
  endTime : Int
  totalQuestions : Nat
  testType : String
  deriving DecidableEq

/-- A persisted Question document (`questionSchema`). -/
structure QuestionRec where
  qid : Nat
  testId : Nat
  questionNumber : Int
  questionStatement : String
  option1 : String
  option2 : String
  option3 : String
  option4 : String
  correctOption : Option String
  deriving DecidableEq

/-- The document store: tests and questions collections plus an id counter
standing in for ObjectId generation. -/
structure DB where
  tests : List TestRec
  questions : List QuestionRec
  nextId : Nat
  deriving DecidableEq

/-- One raw entry of the request's `questions` array; `none` models an absent
(`undefined`/`null`) field, and `some 0` a supplied numeric `0`. -/
structure QuestionInput where
  questionNumber : Option Int
  questionStatement : Option String
  option1 : Option String
  option2 : Option String
  option3 : Option String
  option4 : Option String
  correctOption : Option String
  deriving DecidableEq

/-- The create-test request body.  `startTime`/`endTime` are the already
parsed instants of the supplied values (epoch ms); `none` models an absent or
falsy value.  `questions = none` models a body whose `questions` is not an
array. -/
structure CreateReq where
  title : Option String
  date : Option String
  startTime : Option Int
  endTime : Option Int
  questions : Option (List QuestionInput)
  testType : Option String
  deriving DecidableEq

/-- JS truthiness for an optional numeric field: absent and `0` are falsy. -/
def jsNumFalsy : Option Int → Bool
  | none => true
  | some n => n == 0

/-- The source's `q.questionNumber || idx + 1`. -/
def jsOrNum (v : Option Int) (dfl : Int) : Int :=
  match v with
  | none => dfl
  | some n => if n == 0 then dfl else n

/-- The source's `String(x || "")` for an optional string field. -/
def jsStrOfField : Option String → String
  | none => ""
  | some s => s

/-- One element of the source's `qDocs` map. -/
def mkQDoc (testId qid idx : Nat) (q : QuestionInput) : QuestionRec :=
  { qid := qid
    testId := testId
    questionNumber := jsOrNum q.questionNumber ((idx : Int) + 1)
    questionStatement := jsTrim (jsStrOfField q.questionStatement)
    option1 := jsTrim (jsStrOfField q.option1)
    option2 := jsTrim (jsStrOfField q.option2)
    option3 := jsTrim (jsStrOfField q.option3)
    option4 := jsTrim (jsStrOfField q.option4)
    correctOption := q.correctOption }

/-- The source's `questions.map((q, idx) => ...)` building `qDocs`, with
fresh ids assigned from `base`; `i` is the index of the first element. -/
def buildQDocs (testId base : Nat) : Nat → List QuestionInput → List QuestionRec
  | _, [] => []
  | i, q :: rest => mkQDoc testId (base + i) i q :: buildQDocs testId base (i + 1) rest

/-- The `correctOption` enum of `questionSchema`. -/
def optionNames : List String := ["option1", "option2", "option3", "option4"]

/-- Mongoose validation of one question document: `questionNumber` min 1,
required non-empty statement and options, `correctOption` in the enum. -/
def questionDocValid (q : QuestionRec) : Bool :=
  decide (1 ≤ q.questionNumber) && q.questionStatement != "" &&
  q.option1 != "" && q.option2 != "" && q.option3 != "" && q.option4 != "" &&
  (match q.correctOption with
   | some c => optionNames.contains c
   | none => false)

/-- Mongoose validation of one test document: trimmed title required and at
most 200 characters, date matching the schema regex, `testType` in its enum. -/
def testDocValid (t : TestRec) : Bool :=
  (jsTrim t.title) != "" && decide ((jsTrim t.title).length ≤ 200) &&
  digitsDashPattern t.date &&
  (t.testType == "paid" || t.testType == "free")

/-- Outcome of POST /admin/create-test-with-questions.  `badRequest` is a
400, `conflict` a 409, `serverError` a 500; `ok` carries the response's
`testId`, `date`, `totalQuestions` and `testType` fields. -/
inductive CreateResult where
  | badRequest (message : String)
  | conflict (message : String)
  | serverError (message : String)
  | ok (testId : Nat) (date : String) (totalQuestions : Nat) (testType : String)
  deriving DecidableEq

/-- The POST /admin/create-test-with-questions handler (most evolved
revision, src/api/index.js lines 333-410), step for step:

1. `!title?.trim() || !date || !Array.isArray(questions) ||
   !["paid","free"].includes(testType)` → 400;
2. `allowedCounts = [50, 150]`, other lengths → 400
   "Allowed question counts: 50 or 150 only";
3. `if (date.includes("T")) date = date.split("T")[0]`;
4. regex `/^\d{4}-\d{2}-\d{2}$/` → else 400 "Date must be YYYY-MM-DD";
5. `new Date(date + "T00:00:00+05:30")` NaN check → 400 "Invalid date";
6. `Test.findOne({ date })` → 409 "Test already exists for this date";
7. start/end: supplied instants shifted by `- IST_OFFSET_MS`, else the IST
   midnight of the date and that plus `24*60*60*1000 - 1000`;
8. `Test.create` (Mongoose validates the test document first);
9. `qDocs` map, then `Question.insertMany` (Mongoose validates every
   question document before inserting any; on failure the test stays). -/
def createTest (req : CreateReq) (db : DB) : CreateResult × DB :=
  if titleMissing req.title || strFalsy req.date || req.questions.isNone ||
     !testTypeOk req.testType then
    (.badRequest "title, date, questions array, and testType ('paid' or 'free') are required", db)
  else
    let qs := req.questions.getD []
    let numQuestions := qs.length
    if !(numQuestions == 50 || numQuestions == 150) then
      (.badRequest "Allowed question counts: 50 or 150 only", db)
    else
      let date := normalizeDate (req.date.getD "")
      if !digitsDashPattern date then
        (.badRequest "Date must be YYYY-MM-DD", db)
      else
        match parseDateIST date with
        | none => (.badRequest "Invalid date", db)
        | some dateMs =>
          if db.tests.any (fun t => t.date == date) then
            (.conflict "Test already exists for this date", db)
          else
            let start := match req.startTime with
              | some s => s - IST_OFFSET_MS
              | none => dateMs
            let stop := match req.endTime with
              | some e => e - IST_OFFSET_MS
              | none => dateMs + 86400000 - 1000
            let t : TestRec :=
              { id := db.nextId
                title := jsTrim (req.title.getD "")
                date := date
                startTime := start
                endTime := stop
                totalQuestions := numQuestions
                testType := req.testType.getD "" }
            if !testDocValid t then
              (.serverError "Test validation failed", db)
            else
              let db1 : DB := { db with tests := db.tests ++ [t], nextId := db.nextId + 1 }
              let qdocs := buildQDocs t.id db1.nextId 0 qs
              if qdocs.all questionDocValid then
                (.ok t.id date numQuestions t.testType,
                 { db1 with
                     questions := db1.questions ++ qdocs
                     nextId := db1.nextId + qdocs.length })
              else
                (.serverError "Question validation failed", db1)

/-- Outcome of DELETE /admin/delete-test/:testId. -/
inductive DeleteTestResult where
  | ok (message : String)
  | notFound (message : String)
  deriving DecidableEq

/-- The DELETE /admin/delete-test/:testId handler (most evolved revision):
`Question.deleteMany({ testId })`, then `Test.findByIdAndDelete(testId)`;
404 when the latter finds nothing. -/
def deleteTest (testId : Nat) (db : DB) : DeleteTestResult × DB :=
  let db1 : DB := { db with questions := db.questions.filter (fun q => !(q.testId == testId)) }
  if db1.tests.any (fun t => t.id == testId) then
    (.ok "Test & questions deleted",
     { db1 with tests := db1.tests.filter (fun t => !(t.id == testId)) })
  else
    (.notFound "Test not found", db1)

/-- Outcome of DELETE /admin/delete-question/:id — the handler has only one
response shape. -/
inductive DeleteQuestionResult where
  | ok (message : String)
  deriving DecidableEq

/-- The DELETE /admin/delete-question/:id handler
(src/api/index.js lines 757-760):
`Question.findByIdAndDelete(id)` then an unconditional success response.
It never touches the parent Test and never returns 404. -/
def deleteQuestion (id : Nat) (db : DB) : DeleteQuestionResult × DB :=
  (.ok "Question Deleted Successfully",
   { db with questions := db.questions.filter (fun q => !(q.qid == id)) })

/-- A persisted Admin document. -/
structure AdminRec where
  id : Nat
  email : String
  password : String
  deriving DecidableEq

/-- Outcome of POST /admin/login; `ok` carries the id signed into the token. -/
inductive LoginResult where
  | badRequest (message : String)
  | unauthorized (message : String)
  | ok (adminId : Nat)
  deriving DecidableEq

/-- The POST /admin/login handler (src/api/index.js lines 312-330).
`compare` stands for `bcrypt.compare` (password, stored hash). -/
def adminLogin (compare : String → String → Bool)
    (email password : Option String) (admins : List AdminRec) : LoginResult :=
  if strFalsy email || strFalsy password then
    .badRequest "Email & password required"
  else
    match admins.find? (fun a => a.email == jsTrim (jsToLower (email.getD ""))) with
    | none => .unauthorized "Admin not found"
    | some a =>
      if !compare (password.getD "") a.password then
        .unauthorized "Wrong password"
      else
        .ok a.id

/-- The data-model invariant: every persisted Question's `testId` references
an existing Test. -/
def noOrphanQuestions (db : DB) : Bool :=
  db.questions.all (fun q => db.tests.any (fun t => t.id == q.testId))

/-! ### Concrete fixtures used to instantiate the theorems -/

/-- A well-formed question entry with no supplied `questionNumber`. -/
def goodQ : QuestionInput :=
  { questionNumber := none
    questionStatement := some "What is two plus two?"
    option1 := some "1"
    option2 := some "2"
    option3 := some "3"
    option4 := some "4"
    correctOption := some "option4" }

/-- The empty document store. -/
def emptyDB : DB := { tests := [], questions := [], nextId := 0 }

/-- A well-formed create-test request with `n` copies of `goodQ` and no
explicit `startTime`/`endTime`. -/
def goodReq (n : Nat) : CreateReq :=
  { title := some "Mock Test"
    date := some "2026-02-10"
    startTime := none
    endTime := none
    questions := some (List.replicate n goodQ)
    testType := some "paid" }

/-- A persisted free test on 2026-02-10. -/
def freeTest : TestRec :=
  { id := 0
    title := "Mock Test"
    date := "2026-02-10"
    startTime := 0
    endTime := 0
    totalQuestions := 50
    testType := "free" }

/-- A store already holding `freeTest`. -/
def dbWithFree : DB := { tests := [freeTest], questions := [], nextId := 1 }

/-! ### C1 — question-count / phase rule -/

/-- C1 counterexample: the claim says a 75-question request yields a test of
phase `daily`, but the code rejects 75 questions outright — `allowedCounts`
is `[50, 150]` and the 400 message enumerates 50 and 150, not 75/100/80. -/
theorem c1_counterexample :
    createTest (goodReq 75) emptyDB =
      (CreateResult.badRequest "Allowed question counts: 50 or 150 only", emptyDB) := by
  decide

/-- C1 amended: the question-array length rule is `allowedCounts = [50, 150]`
and there is no phase inference (no revision's schema has a `phase` field):
any length other than 50 or 150 is rejected with a 400 whose message
enumerates the allowed counts, and nothing is persisted. -/
theorem c1_phase_rule_amended (req : CreateReq) (db : DB) (qs : List QuestionInput)
    (hqs : req.questions = some qs)
    (h50 : qs.length ≠ 50) (h150 : qs.length ≠ 150)
    (htitle : titleMissing req.title = false)
    (hdate : strFalsy req.date = false)
    (htype : testTypeOk req.testType = true) :
    createTest req db =
      (CreateResult.badRequest "Allowed question counts: 50 or 150 only", db) := by
  unfold createTest
  rw [hqs]
  simp [htitle, hdate, htype, h50, h150]

/-- C1 witness: the amended rule applied to an 80-question request. -/
theorem c1_phase_rule_witness :
    createTest (goodReq 80) emptyDB =
      (CreateResult.badRequest "Allowed question counts: 50 or 150 only", emptyDB) :=
  c1_phase_rule_amended (goodReq 80) emptyDB (List.replicate 80 goodQ) rfl
    (by decide) (by decide) (by decide) (by decide) (by decide)

/-! ### C2 — duplicate-test rule -/

/-- C2 counterexample: the claim says two create requests with the same date
but different `testType` both succeed; in the code the duplicate check is
`Test.findOne({ date })`, on the date alone, so the second request fails
with a 409 conflict. -/
theorem c2_counterexample :
    (createTest (goodReq 50) emptyDB).1 = CreateResult.ok 0 "2026-02-10" 50 "paid" ∧
    (createTest { goodReq 50 with testType := some "free" }
        (createTest (goodReq 50) emptyDB).2).1 =
      CreateResult.conflict "Test already exists for this date" := by
  constructor
  · decide
  · decide

/-- C2 amended: the duplicate check is on the normalized date alone — a
create-test request whose normalized date equals the date of any existing
Test (whatever that test's `testType`; no `phase` exists) fails with a 409
`DuplicateTest` conflict and persists nothing. -/
theorem c2_duplicate_date_amended (req : CreateReq) (db : DB)
    (qs : List QuestionInput) (t : TestRec)
    (hqs : req.questions = some qs)
    (hcount : qs.length = 50 ∨ qs.length = 150)
    (htitle : titleMissing req.title = false)
    (hdate : strFalsy req.date = false)
    (htype : testTypeOk req.testType = true)
    (hre : digitsDashPattern (normalizeDate (req.date.getD "")) = true)
    (hparse : (parseDateIST (normalizeDate (req.date.getD ""))).isSome = true)
    (ht : t ∈ db.tests) (hd : t.date = normalizeDate (req.date.getD "")) :
    createTest req db =
      (CreateResult.conflict "Test already exists for this date", db) := by
  unfold createTest
  rw [hqs]
  have hdup : (db.tests.any (fun u => u.date == normalizeDate (req.date.getD ""))) = true := by
    rw [List.any_eq_true]
    exact ⟨t, ht, by simp [hd]⟩
  rcases Option.isSome_iff_exists.mp hparse with ⟨ms, hms⟩
  rcases hcount with h | h <;>
    simp [htitle, hdate, htype, hre, hms, hdup, h]

/-- C2 witness: a paid request for 2026-02-10 conflicts with the persisted
free test for the same date. -/
theorem c2_duplicate_date_witness :
    createTest (goodReq 50) dbWithFree =
      (CreateResult.conflict "Test already exists for this date", dbWithFree) :=
  c2_duplicate_date_amended (goodReq 50) dbWithFree (List.replicate 50 goodQ) freeTest
    rfl (Or.inl (by decide)) (by decide) (by decide) (by decide) (by decide)
    (by decide) (by decide) (by decide)

/-! ### C5 — time-range validation -/

/-- A well-formed 50-question request whose supplied `endTime` lies before its
supplied `startTime`. -/
def badTimesReq : CreateReq :=
  { goodReq 50 with startTime := some 1000000000, endTime := some 0 }

/-- C5 counterexample: the claim says a request whose computed `endUTC` is
not strictly after `startUTC` is rejected with `InvalidTimeRange`; the code
has no such check — this request (end instant before start instant) succeeds
and persists a test whose stored `endTime` is below its `startTime`. -/
theorem c5_counterexample :
    (createTest badTimesReq emptyDB).1 = CreateResult.ok 0 "2026-02-10" 50 "paid" ∧
    (createTest badTimesReq emptyDB).2.tests.length = 1 ∧
    ((createTest badTimesReq emptyDB).2.tests.all
        (fun t => decide (t.endTime < t.startTime))) = true := by
  exact ⟨by decide, by decide, by decide⟩

/-- C5 amended: the operation performs no time-range validation at all — its
outcome (success, or which error) is completely independent of the
`startTime`/`endTime` fields, so in particular a request with
`endUTC ≤ startUTC` is never rejected. -/
theorem c5_no_time_range_check_amended (req : CreateReq) (db : DB)
    (s1 e1 s2 e2 : Option Int) :
    (createTest { req with startTime := s1, endTime := e1 } db).1 =
    (createTest { req with startTime := s2, endTime := e2 } db).1 := by
  unfold createTest
  cases hp : parseDateIST (normalizeDate (req.date.getD "")) with
  | none =>
    dsimp only
    simp only [hp, apply_ite Prod.fst]
  | some ms =>
    dsimp only
    simp only [hp, apply_ite Prod.fst]
    rfl

/-! ### C7 — delete-question -/

/-- A persisted question with id 5. -/
def q5 : QuestionRec :=
  { qid := 5
    testId := 0
    questionNumber := 1
    questionStatement := "First question"
    option1 := "a"
    option2 := "b"
    option3 := "c"
    option4 := "d"
    correctOption := some "option1" }

/-- A second persisted question with id 6. -/
def q6 : QuestionRec := { q5 with qid := 6, questionNumber := 2 }

/-- The parent test of `q5` and `q6`, with `totalQuestions = 2`. -/
def parentTest : TestRec :=
  { id := 0
    title := "Parent"
    date := "2026-03-01"
    startTime := 0
    endTime := 1
    totalQuestions := 2
    testType := "paid" }

/-- A store holding `parentTest` and its two questions. -/
def dbQ : DB := { tests := [parentTest], questions := [q5, q6], nextId := 7 }

/-- C7 counterexample: deleting question 5 leaves the tests collection — and
hence the parent's `totalQuestions` counter — completely unchanged (the claim
says the counter is decremented by one), and deleting a nonexistent question
id responds with the success message instead of NotFound. -/
theorem c7_counterexample :
    (deleteQuestion 5 dbQ).2.tests = dbQ.tests ∧
    (deleteQuestion 99 dbQ).1 = DeleteQuestionResult.ok "Question Deleted Successfully" := by
  exact ⟨by decide, by decide⟩

/-- C7 amended: delete-question removes exactly the question with the given
id, always responds with the success message "Question Deleted Successfully"
— even when no such question exists (no NotFound path) — and never modifies
the tests collection, so the parent Test's `totalQuestions` counter is not
decremented. -/
theorem c7_delete_question_amended (db : DB) (id : Nat) :
    (deleteQuestion id db).1 = DeleteQuestionResult.ok "Question Deleted Successfully" ∧
    (deleteQuestion id db).2.tests = db.tests ∧
    (∀ q ∈ (deleteQuestion id db).2.questions, q.qid ≠ id) ∧
    (∀ q ∈ db.questions, q.qid ≠ id → q ∈ (deleteQuestion id db).2.questions) := by
  refine ⟨rfl, rfl, ?_, ?_⟩
  · intro q hq
    have h := (List.mem_filter.mp hq).2
    simpa using h
  · intro q hq hne
    exact List.mem_filter.mpr ⟨hq, by simpa using hne⟩

/-- C7 witness: the amended behaviour at question 5 of the concrete store
(`q6` survives, the tests collection is untouched, the response is the
unconditional success message). -/
theorem c7_delete_question_witness :
    (deleteQuestion 5 dbQ).1 = DeleteQuestionResult.ok "Question Deleted Successfully" ∧
    (deleteQuestion 5 dbQ).2.tests = dbQ.tests ∧
    q6 ∈ (deleteQuestion 5 dbQ).2.questions :=
  ⟨(c7_delete_question_amended dbQ 5).1,
   (c7_delete_question_amended dbQ 5).2.1,
   (c7_delete_question_amended dbQ 5).2.2.2 q6 (by decide) (by decide)⟩

/-! ### C4 — delete-test cascade -/

/-- C4: confirmed. After delete-test on any identifier no question with that
`testId` remains; the no-orphan invariant is preserved; and when no test has
the identifier the endpoint answers NotFound and (given the invariant, so
that no orphan questions carry the dangling id) the store is left entirely
unchanged. -/
theorem c4_delete_test_cascade (db : DB) (tid : Nat)
    (hinv : noOrphanQuestions db = true) :
    (∀ q ∈ (deleteTest tid db).2.questions, q.testId ≠ tid) ∧
    noOrphanQuestions (deleteTest tid db).2 = true ∧
    ((∀ t ∈ db.tests, t.id ≠ tid) →
      (deleteTest tid db).1 = DeleteTestResult.notFound "Test not found" ∧
      (deleteTest tid db).2 = db) := by
  rw [noOrphanQuestions, List.all_eq_true] at hinv
  unfold deleteTest
  dsimp only
  by_cases hex : (db.tests.any fun t => t.id == tid) = true
  · rw [if_pos hex]
    dsimp only
    refine ⟨?_, ?_, ?_⟩
    · intro q hq
      have h := (List.mem_filter.mp hq).2
      simpa using h
    · rw [noOrphanQuestions, List.all_eq_true]
      intro q hq
      dsimp only at hq ⊢
      rcases List.mem_filter.mp hq with ⟨hq0, hq1⟩
      have hqne : q.testId ≠ tid := by simpa using hq1
      have hq2 := hinv q hq0
      rw [List.any_eq_true] at hq2 ⊢
      rcases hq2 with ⟨t, ht, hteq⟩
      refine ⟨t, List.mem_filter.mpr ⟨ht, ?_⟩, hteq⟩
      have hti : t.id = q.testId := by simpa using hteq
      simp [hti, hqne]
    · intro hno
      rw [List.any_eq_true] at hex
      rcases hex with ⟨t, ht, hteq⟩
      exact absurd (by simpa using hteq) (hno t ht)
  · rw [if_neg hex]
    dsimp only
    have hfix : db.questions.filter (fun q => !(q.testId == tid)) = db.questions := by
      rw [List.filter_eq_self]
      intro q hq
      have hq2 := hinv q hq
      rw [List.any_eq_true] at hq2
      rcases hq2 with ⟨t, ht, hteq⟩
      have htid : t.id = q.testId := by simpa using hteq
      have htne : t.id ≠ tid := by
        intro h
        exact hex (List.any_eq_true.mpr ⟨t, ht, by simp [h]⟩)
      rw [← htid] at *
      simpa using htne
    refine ⟨?_, ?_, ?_⟩
    · intro q hq
      have h := (List.mem_filter.mp hq).2
      simpa using h
    · rw [noOrphanQuestions, List.all_eq_true]
      intro q hq
      have hq0 := (List.mem_filter.mp hq).1
      simpa using hinv q hq0
    · intro _
      rw [hfix]
      exact ⟨rfl, rfl⟩

/-- C4 witness: deleting the nonexistent test 99 from the concrete two-question
store answers NotFound and changes nothing, and preserves the invariant. -/
theorem c4_delete_test_witness :
    noOrphanQuestions (deleteTest 99 dbQ).2 = true ∧
    (deleteTest 99 dbQ).1 = DeleteTestResult.notFound "Test not found" ∧
    (deleteTest 99 dbQ).2 = dbQ :=
  ⟨(c4_delete_test_cascade dbQ 99 (by decide)).2.1,
   ((c4_delete_test_cascade dbQ 99 (by decide)).2.2 (by decide)).1,
   ((c4_delete_test_cascade dbQ 99 (by decide)).2.2 (by decide)).2⟩

/-! ### C8 — validation order -/

/-- A question entry with no `correctOption` (fails Mongoose schema
validation at the insert step, not earlier). -/
def badQ : QuestionInput := { goodQ with correctOption := none }

/-- A 50-question request whose first question entry is invalid. -/
def badQuestionReq : CreateReq :=
  { goodReq 50 with questions := some (badQ :: List.replicate 49 goodQ) }

/-- C8 counterexample: the claim says every validation failure leaves the
store unchanged; but question-entry fields are only validated by the schema
at `Question.insertMany`, which runs after `Test.create` — this request fails
(500) yet a Test record has been persisted, with no questions. -/
theorem c8_counterexample :
    (createTest badQuestionReq emptyDB).1 =
      CreateResult.serverError "Question validation failed" ∧
    (createTest badQuestionReq emptyDB).2.tests.length = 1 ∧
    (createTest badQuestionReq emptyDB).2.questions = [] := by
  exact ⟨by decide, by decide, by decide⟩

/-- C8 amended: top-level validation (field presence, question count, date
format and calendar validity, `testType`, duplicate date) and the Test
document's own schema validation all complete before any write — every 400,
409, and test-schema 500 leaves the store unchanged; but per-question field
validation happens only at the question batch insert, after the Test write,
so a request failing question-level validation reports failure while leaving
a newly persisted Test and no new Questions. -/
theorem c8_validation_order_amended (req : CreateReq) (db : DB) :
    (∀ m, (createTest req db).1 = CreateResult.badRequest m → (createTest req db).2 = db) ∧
    (∀ m, (createTest req db).1 = CreateResult.conflict m → (createTest req db).2 = db) ∧
    ((createTest req db).1 = CreateResult.serverError "Test validation failed" →
      (createTest req db).2 = db) ∧
    ((createTest req db).1 = CreateResult.serverError "Question validation failed" →
      ∃ t, (createTest req db).2.tests = db.tests ++ [t] ∧
           (createTest req db).2.questions = db.questions) := by
  unfold createTest
  dsimp only
  split
  · exact ⟨fun m h => rfl, fun m h => CreateResult.noConfusion h,
      fun h => CreateResult.noConfusion h, fun h => CreateResult.noConfusion h⟩
  · split
    · exact ⟨fun m h => rfl, fun m h => CreateResult.noConfusion h,
        fun h => CreateResult.noConfusion h, fun h => CreateResult.noConfusion h⟩
    · split
      · exact ⟨fun m h => rfl, fun m h => CreateResult.noConfusion h,
          fun h => CreateResult.noConfusion h, fun h => CreateResult.noConfusion h⟩
      · split
        · exact ⟨fun m h => rfl, fun m h => CreateResult.noConfusion h,
            fun h => CreateResult.noConfusion h, fun h => CreateResult.noConfusion h⟩
        · split
          · exact ⟨fun m h => CreateResult.noConfusion h, fun m h => rfl,
              fun h => CreateResult.noConfusion h, fun h => CreateResult.noConfusion h⟩
          · split
            · exact ⟨fun m h => CreateResult.noConfusion h, fun m h => CreateResult.noConfusion h,
                fun h => rfl, fun h => absurd (CreateResult.serverError.inj h) (by decide)⟩
            · split
              · exact ⟨fun m h => CreateResult.noConfusion h, fun m h => CreateResult.noConfusion h,
                  fun h => CreateResult.noConfusion h, fun h => CreateResult.noConfusion h⟩
              · exact ⟨fun m h => CreateResult.noConfusion h, fun m h => CreateResult.noConfusion h,
                  fun h => absurd (CreateResult.serverError.inj h) (by decide),
                  fun h => ⟨_, rfl, rfl⟩⟩

/-- C8 witness: the amended theorem applied to a count-rejected request
(store unchanged) and to the bad-question request (test persisted, no
questions). -/
theorem c8_validation_order_witness :
    (createTest (goodReq 80) emptyDB).2 = emptyDB ∧
    (∃ t, (createTest badQuestionReq emptyDB).2.tests = emptyDB.tests ++ [t] ∧
          (createTest badQuestionReq emptyDB).2.questions = emptyDB.questions) :=
  ⟨(c8_validation_order_amended (goodReq 80) emptyDB).1
      "Allowed question counts: 50 or 150 only" (by decide),
   (c8_validation_order_amended badQuestionReq emptyDB).2.2.2 (by decide)⟩

/-! ### C9 — login failure messages -/

/-- A provisioned admin account. -/
def storedAdmin : AdminRec := { id := 1, email := "admin@x.com", password := "hashedsecret" }

/-- An admin collection holding only `storedAdmin`. -/
def admins1 : List AdminRec := [storedAdmin]

/-- A concrete stand-in for `bcrypt.compare`: the password matches exactly
its stored hash. -/
def pwEq : String → String → Bool := fun p h => p == h

/-- C9 counterexample: the claim says an unknown-email failure and a
known-email/wrong-password failure return the same message; the handler
returns "Admin not found" for the first and "Wrong password" for the second
— two distinct 401 messages. -/
theorem c9_counterexample :
    adminLogin pwEq (some "other@x.com") (some "hashedsecret") admins1 =
      LoginResult.unauthorized "Admin not found" ∧
    adminLogin pwEq (some "admin@x.com") (some "wrongpassword") admins1 =
      LoginResult.unauthorized "Wrong password" ∧
    ("Admin not found" : String) ≠ "Wrong password" := by
  exact ⟨by decide, by decide, by decide⟩

/-- C9 amended: the two 401 failure modes always answer with distinct fixed
messages — an email matching no stored admin yields "Admin not found" while a
matched admin with a failing password comparison yields "Wrong password" — so
the response does leak which part of the credential failed. -/
theorem c9_login_leak_amended (compare : String → String → Bool)
    (admins : List AdminRec) (e1 p1 e2 p2 : Option String) (a : AdminRec)
    (he1 : strFalsy e1 = false) (hp1 : strFalsy p1 = false)
    (he2 : strFalsy e2 = false) (hp2 : strFalsy p2 = false)
    (hfind1 : admins.find? (fun x => x.email == jsTrim (jsToLower (e1.getD ""))) = none)
    (hfind2 : admins.find? (fun x => x.email == jsTrim (jsToLower (e2.getD ""))) = some a)
    (hcmp : compare (p2.getD "") a.password = false) :
    adminLogin compare e1 p1 admins = LoginResult.unauthorized "Admin not found" ∧
    adminLogin compare e2 p2 admins = LoginResult.unauthorized "Wrong password" ∧
    adminLogin compare e1 p1 admins ≠ adminLogin compare e2 p2 admins := by
  have h1 : adminLogin compare e1 p1 admins = LoginResult.unauthorized "Admin not found" := by
    unfold adminLogin
    simp [he1, hp1, hfind1]
  have h2 : adminLogin compare e2 p2 admins = LoginResult.unauthorized "Wrong password" := by
    unfold adminLogin
    simp [he2, hp2, hfind2, hcmp]
  exact ⟨h1, h2, by rw [h1, h2]; decide⟩

/-- C9 witness: the amended theorem at the one-admin store — an unknown email
and a known email with a wrong password produce the two distinct messages. -/
theorem c9_login_leak_witness :
    adminLogin pwEq (some "nobody@x.com") (some "pw") admins1 =
      LoginResult.unauthorized "Admin not found" ∧
    adminLogin pwEq (some "Admin@X.com") (some "bad") admins1 =
      LoginResult.unauthorized "Wrong password" ∧
    adminLogin pwEq (some "nobody@x.com") (some "pw") admins1 ≠
      adminLogin pwEq (some "Admin@X.com") (some "bad") admins1 :=
  c9_login_leak_amended pwEq admins1 (some "nobody@x.com") (some "pw")
    (some "Admin@X.com") (some "bad") storedAdmin
    (by decide) (by decide) (by decide) (by decide) (by decide) (by decide) (by decide)

/-! ### C10 — questionNumber fallback -/

/-- Element `j` of the question batch is the doc built from element `j` of
the input, with the matching 1-based index and id offset. -/
theorem buildQDocs_get? (testId base : Nat) :
    ∀ (qs : List QuestionInput) (i j : Nat),
      (buildQDocs testId base i qs).get? j =
        (qs.get? j).map (fun q => mkQDoc testId (base + i + j) (i + j) q) := by
  intro qs
  induction qs with
  | nil => intro i j; simp [buildQDocs]
  | cons q rest ih =>
    intro i j
    cases j with
    | zero => simp [buildQDocs]
    | succ j =>
      simp only [buildQDocs, List.get?_cons_succ]
      rw [ih (i + 1) j]
      have e1 : base + (i + 1) + j = base + i + (j + 1) := by omega
      have e2 : (i + 1) + j = i + (j + 1) := by omega
      rw [e1, e2]

/-- C10: confirmed. For the question entry at 0-based position `j`, a falsy
`questionNumber` — absent, null, or an explicitly supplied `0` — is silently
replaced by the 1-based position `j + 1`; a non-zero supplied number is
stored verbatim with no range check against the array; and consequently no
produced document ever stores `questionNumber = 0`. -/
theorem c10_question_number_fallback (qs : List QuestionInput) (testId base j : Nat)
    (q : QuestionInput) (hj : qs.get? j = some q) :
    ∃ d : QuestionRec,
      (buildQDocs testId base 0 qs).get? j = some d ∧
      (jsNumFalsy q.questionNumber = true → d.questionNumber = (j : Int) + 1) ∧
      (∀ n : Int, q.questionNumber = some n → n ≠ 0 → d.questionNumber = n) ∧
      d.questionNumber ≠ 0 := by
  refine ⟨mkQDoc testId (base + 0 + j) (0 + j) q, ?_, ?_, ?_, ?_⟩
  · rw [buildQDocs_get? testId base qs 0 j, hj]
    rfl
  · intro hf
    cases hq : q.questionNumber with
    | none => simp [mkQDoc, jsOrNum, hq, Nat.zero_add]
    | some n =>
      rw [hq] at hf
      have hn0 : n = 0 := by simpa [jsNumFalsy] using hf
      simp [mkQDoc, jsOrNum, hq, hn0, Nat.zero_add]
  · intro n hn hne
    simp [mkQDoc, jsOrNum, hn, hne]
  · cases hq : q.questionNumber with
    | none =>
      simp only [mkQDoc, jsOrNum, hq]
      omega
    | some n =>
      by_cases h0 : n = 0
      · simp only [mkQDoc, jsOrNum, hq, h0]
        norm_num
        omega
      · simp only [mkQDoc, jsOrNum, hq]
        rw [if_neg (by simpa using h0)]
        exact h0

/-- A question entry that explicitly supplies `questionNumber = 0`. -/
def zeroNumQ : QuestionInput := { goodQ with questionNumber := some 0 }

/-- C10 witness: the fallback applied to a one-element array whose entry
supplies `questionNumber = 0`. -/
theorem c10_question_number_witness :
    ∃ d : QuestionRec,
      (buildQDocs 0 1 0 [zeroNumQ]).get? 0 = some d ∧
      (jsNumFalsy zeroNumQ.questionNumber = true → d.questionNumber = (0 : Int) + 1) ∧
      (∀ n : Int, zeroNumQ.questionNumber = some n → n ≠ 0 → d.questionNumber = n) ∧
      d.questionNumber ≠ 0 := by
  have h := c10_question_number_fallback [zeroNumQ] 0 1 0 zeroNumQ rfl
  simpa using h

/-! ### C3 — time normalization -/

/-- C3: confirmed. On every successful create, the stored window is: a
supplied `startTime`/`endTime` instant shifted by `-IST_OFFSET_MS` (treated
as a UTC+5:30 wall clock and converted to UTC); an omitted `startTime`
defaults to midnight of the normalized date in the UTC+5:30 offset, whose
IST-offset display is exactly `d` `T00:00:00`; an omitted `endTime` defaults
to 23:59:59 of that same calendar date in that offset, displaying as `d`
`T23:59:59` (midnight's display plus 86 399 000 ms). -/
theorem c3_time_normalization (req : CreateReq) (db : DB) (tid : Nat) (d : String)
    (n : Nat) (ty : String) (db2 : DB)
    (h : createTest req db = (CreateResult.ok tid d n ty, db2)) :
    ∃ t : TestRec, db2.tests = db.tests ++ [t] ∧
      (∀ s, req.startTime = some s → t.startTime = s - IST_OFFSET_MS) ∧
      (∀ e, req.endTime = some e → t.endTime = e - IST_OFFSET_MS) ∧
      (req.startTime = none → some (istDisplayMs t.startTime) = msOfDateMidnightUTC d) ∧
      (req.endTime = none →
        some (istDisplayMs t.endTime) = (msOfDateMidnightUTC d).map (fun x => x + 86399000)) := by
  unfold createTest at h
  dsimp only at h
  split at h
  · exact absurd h (by simp)
  · split at h
    · exact absurd h (by simp)
    · split at h
      · exact absurd h (by simp)
      · split at h
        · exact absurd h (by simp)
        · rename_i ms hms
          split at h
          · exact absurd h (by simp)
          · split at h
            · exact absurd h (by simp)
            · split at h
              · rw [Prod.mk.injEq] at h
                obtain ⟨hr, hdb⟩ := h
                rw [CreateResult.ok.injEq] at hr
                obtain ⟨hid, hd, hn, hty⟩ := hr
                subst hdb
                subst hd
                have hm0 : ∃ m0, msOfDateMidnightUTC (normalizeDate (req.date.getD "")) = some m0 ∧
                    m0 - IST_OFFSET_MS = ms := by
                  unfold parseDateIST at hms
                  cases hm : msOfDateMidnightUTC (normalizeDate (req.date.getD "")) with
                  | none => rw [hm] at hms; simp at hms
                  | some m0 =>
                    rw [hm] at hms
                    simp only [Option.map_some'] at hms
                    exact ⟨m0, rfl, Option.some.inj hms⟩
                obtain ⟨m0, hm, hms0⟩ := hm0
                refine ⟨_, rfl, ?_, ?_, ?_, ?_⟩
                · intro s hs
                  dsimp only
                  rw [hs]
                · intro e he
                  dsimp only
                  rw [he]
                · intro hnone
                  dsimp only
                  rw [hnone, hm]
                  simp only [Option.some.injEq, istDisplayMs, IST_OFFSET_MS]
                  rw [IST_OFFSET_MS] at hms0
                  omega
                · intro hnone
                  dsimp only
                  rw [hnone, hm]
                  simp only [Option.map_some', Option.some.injEq, istDisplayMs, IST_OFFSET_MS]
                  rw [IST_OFFSET_MS] at hms0
                  omega
              · exact absurd h (by simp)

/-- C3 witness: the default window of the request for 2026-02-10 with no
supplied times, whose IST display is 2026-02-10T00:00:00 through
2026-02-10T23:59:59. -/
theorem c3_time_normalization_witness :
    ∃ t : TestRec, (createTest (goodReq 50) emptyDB).2.tests = emptyDB.tests ++ [t] ∧
      (∀ s, (goodReq 50).startTime = some s → t.startTime = s - IST_OFFSET_MS) ∧
      (∀ e, (goodReq 50).endTime = some e → t.endTime = e - IST_OFFSET_MS) ∧
      ((goodReq 50).startTime = none →
        some (istDisplayMs t.startTime) = msOfDateMidnightUTC "2026-02-10") ∧
      ((goodReq 50).endTime = none →
        some (istDisplayMs t.endTime) =
          (msOfDateMidnightUTC "2026-02-10").map (fun x => x + 86399000)) :=
  c3_time_normalization (goodReq 50) emptyDB 0 "2026-02-10" 50 "paid"
    (createTest (goodReq 50) emptyDB).2
    (by
      have h1 : (createTest (goodReq 50) emptyDB).1 =
          CreateResult.ok 0 "2026-02-10" 50 "paid" := by decide
      calc createTest (goodReq 50) emptyDB
          = ((createTest (goodReq 50) emptyDB).1, (createTest (goodReq 50) emptyDB).2) := rfl
        _ = (CreateResult.ok 0 "2026-02-10" 50 "paid",
              (createTest (goodReq 50) emptyDB).2) := by rw [h1])

/-! ### C6 — date normalization idempotence -/

/-- A digit character is not the letter T. -/
theorem isDigit_ne_T (c : Char) (h : c.isDigit = true) : c ≠ 'T' := by
  intro e
  rw [e] at h
  exact absurd h (by decide)

/-- A dash character is not the letter T. -/
theorem dash_ne_T (c : Char) (h : (c == '-') = true) : c ≠ 'T' := by
  intro e
  rw [e] at h
  exact absurd h (by decide)

/-- A string matching the date regex contains no `T`. -/
theorem digitsDashPattern_no_T (s : String) (h : digitsDashPattern s = true) :
    'T' ∉ s.data := by
  unfold digitsDashPattern at h
  split at h
  next a b c d e f g g2 i j heq =>
    rw [heq]
    simp only [Bool.and_eq_true] at h
    obtain ⟨⟨⟨⟨⟨⟨⟨⟨⟨ha, hb⟩, hc⟩, hd⟩, he⟩, hf⟩, hg⟩, hg2⟩, hi⟩, hj⟩ := h
    intro hmem
    simp only [List.mem_cons, List.not_mem_nil, or_false] at hmem
    rcases hmem with h1|h1|h1|h1|h1|h1|h1|h1|h1|h1
    · exact isDigit_ne_T a ha h1.symm
    · exact isDigit_ne_T b hb h1.symm
    · exact isDigit_ne_T c hc h1.symm
    · exact isDigit_ne_T d hd h1.symm
    · exact dash_ne_T e he h1.symm
    · exact isDigit_ne_T f hf h1.symm
    · exact isDigit_ne_T g hg h1.symm
    · exact dash_ne_T g2 hg2 h1.symm
    · exact isDigit_ne_T i hi h1.symm
    · exact isDigit_ne_T j hj h1.symm
  next => exact absurd h (by simp)

/-- `includes("T")` is false on a list without `T`. -/
theorem containsT_eq_false (l : List Char) (h : 'T' ∉ l) : containsT l = false := by
  induction l with
  | nil => rfl
  | cons c cs ih =>
    have hc : (c == 'T') = false := by
      rw [beq_eq_false_iff_ne]
      intro e
      exact h (by simp [e])
    simp only [containsT, hc, Bool.false_or]
    exact ih (fun hm => h (List.mem_cons_of_mem c hm))

/-- `includes("T")` is true as soon as a `T` occurs. -/
theorem containsT_append (l r : List Char) : containsT (l ++ 'T' :: r) = true := by
  induction l with
  | nil => simp [containsT]
  | cons c cs ih => simp [containsT, ih]

/-- `split("T")[0]` of `l ++ "T" ++ r` is `l` when `l` has no `T`. -/
theorem beforeT_append (l r : List Char) (h : 'T' ∉ l) : beforeT (l ++ 'T' :: r) = l := by
  induction l with
  | nil => simp [beforeT]
  | cons c cs ih =>
    have hc : (c == 'T') = false := by
      rw [beq_eq_false_iff_ne]
      intro e
      exact h (by simp [e])
    simp only [List.cons_append, beforeT, hc, Bool.false_eq_true, if_false]
    rw [List.append_eq]
    rw [ih (fun hm => h (List.mem_cons_of_mem c hm))]

/-- Normalization leaves a bare `YYYY-MM-DD` date unchanged. -/
theorem normalizeDate_of_pattern (D : String) (hD : digitsDashPattern D = true) :
    normalizeDate D = D := by
  unfold normalizeDate
  rw [containsT_eq_false D.data (digitsDashPattern_no_T D hD)]
  simp

/-- Normalization truncates a `YYYY-MM-DDT...` date to its date part. -/
theorem normalizeDate_T_suffix (D r : String) (hD : digitsDashPattern D = true) :
    normalizeDate (D ++ "T" ++ r) = D := by
  have hdata : (D ++ "T" ++ r).data = D.data ++ 'T' :: r.data := by
    rw [String.data_append, String.data_append]
    simp
  unfold normalizeDate
  rw [hdata, containsT_append, beforeT_append _ _ (digitsDashPattern_no_T D hD)]
  rfl

/-- C6: confirmed. A `YYYY-MM-DD` date string and the same string followed
by a `T` time-of-day suffix normalize to the identical stored value `D`, and
the two create-test requests behave identically in every respect. -/
theorem c6_date_normalization_idempotent (D r : String) (req : CreateReq) (db : DB)
    (hD : digitsDashPattern D = true) :
    normalizeDate D = D ∧
    normalizeDate (D ++ "T" ++ r) = D ∧
    createTest { req with date := some (D ++ "T" ++ r) } db =
      createTest { req with date := some D } db := by
  have h1 := normalizeDate_of_pattern D hD
  have h2 := normalizeDate_T_suffix D r hD
  have hne2 : ((D : String) == "") = false := by
    rw [beq_eq_false_iff_ne]
    intro e
    rw [e] at hD
    exact absurd hD (by decide)
  have hne1 : ((D ++ "T" ++ r : String) == "") = false := by
    rw [beq_eq_false_iff_ne]
    intro e
    have hd := congrArg String.data e
    rw [String.data_append, String.data_append] at hd
    simp at hd
  refine ⟨h1, h2, ?_⟩
  unfold createTest
  dsimp only [strFalsy, Option.getD]
  rw [hne1, hne2, h1, h2]

/-- C6 witness: supplying "2026-02-10" and "2026-02-10T00:00:00Z" gives the
identical normalized date and identical create-test behaviour. -/
theorem c6_date_normalization_witness :
    normalizeDate "2026-02-10" = "2026-02-10" ∧
    normalizeDate ("2026-02-10" ++ "T" ++ "00:00:00Z") = "2026-02-10" ∧
    createTest { goodReq 50 with date := some ("2026-02-10" ++ "T" ++ "00:00:00Z") } emptyDB =
      createTest { goodReq 50 with date := some "2026-02-10" } emptyDB :=
  c6_date_normalization_idempotent "2026-02-10" "00:00:00Z" (goodReq 50) emptyDB (by decide)

end CronAdmin
